/-
Verification of the animation scheduling / object pooling core of the
3d-force-graph repository (src/animation-manager.js: the AnimationManager
class, the NodeObjectFactory class, and the built-in animation modules).

The JavaScript source is shallowly embedded below:

* mutable THREE.js objects become explicit records threaded through the
  operations; the module-level WeakMap `objectAnimations`, the counter
  `animationIdCounter`, the manager's registry and animated-object set are
  bundled into one `World` record, with scene objects stored in an explicit
  heap keyed by numeric object identity (a heap key plays the role of a JS
  object reference; an identifier absent from the heap models a null
  reference);
* JS numbers become rationals.  IEEE-754 specials are not represented:
  rational division is total with x / 0 = 0, and reading an absent numeric
  option field (reachable only through the option-replacement path of a
  second startAnimation call, where the JS code would compute with
  undefined and produce NaN) is modelled by `Option.getD` defaults, except
  for the `>=` comparison against a possibly-missing duration, where
  `geOpt` mirrors the JS rule that any comparison with undefined/NaN is
  false.  Every theorem below confines itself to inputs on which the JS
  computation stays within ordinary finite arithmetic (positive transition
  durations, fully resolved options);
* wall-clock reads (performance.now() / 1000) become an explicit `now`
  parameter on each operation that performs one;
* callback functions (animation update/init/cleanup, object creators,
  cache creation functions) stay higher-order Lean functions; a callback
  that can throw returns `Except Unit`, and a caught throw is modelled as
  leaving the mutated object unchanged (partial mutation before a throw is
  not representable);
* Maps keyed by strings become insertion-ordered association lists with
  set-replaces / delete-removes semantics matching the JS Map; the JS Map
  `has` test used by `_disposeObject` is embedded over an untyped key type
  `JsKey` so that the source's comparison of a resource value against the
  caches' string keys keeps its real (always-false) semantics.
-/
import Mathlib

namespace ForceGraph

/-! ## Association-list primitives mirroring JS `Map` semantics -/

/-- `Map.get`: first binding of the key, if any. -/
def lget {α β : Type} [DecidableEq α] (l : List (α × β)) (k : α) : Option β :=
  match l with
  | [] => none
  | (k', v) :: rest => if k = k' then some v else lget rest k

/-- `Map.set`: replace the existing binding in place, else append. -/
def lset {α β : Type} [DecidableEq α] (l : List (α × β)) (k : α) (v : β) :
    List (α × β) :=
  match l with
  | [] => [(k, v)]
  | (k', v') :: rest =>
    if k = k' then (k', v) :: rest else (k', v') :: lset rest k v

/-- `Map.delete`: drop the binding of the key. -/
def ldel {α β : Type} [DecidableEq α] (l : List (α × β)) (k : α) :
    List (α × β) :=
  match l with
  | [] => []
  | (k', v') :: rest =>
    if k = k' then rest else (k', v') :: ldel rest k

/-- `Set.add`: append if not already present (insertion order kept). -/
def addUnique {α : Type} [DecidableEq α] (l : List α) (x : α) : List α :=
  if x ∈ l then l else l ++ [x]

/-! ## Scene-object data model (the part of a THREE.Object3D the manager
touches): scale / rotation / position vectors and an optional material with
optional emissive colour, emissive intensity, opacity and base colour. -/

structure Vec3 where
  x : ℚ
  y : ℚ
  z : ℚ
deriving DecidableEq, Repr

structure Material where
  emissive : Option Vec3
  emissiveIntensity : Option ℚ
  opacity : Option ℚ
  color : Option Vec3
deriving DecidableEq, Repr

structure Obj3D where
  scale : Vec3
  rotation : Vec3
  position : Vec3
  material : Option Material
deriving DecidableEq, Repr

/-- Restoration snapshot captured by `startAnimation` (the `initialValues`
object of the source; `clone()` of a vector or colour is a value copy). -/
structure InitialValues where
  scale : Vec3
  rotation : Vec3
  position : Vec3
  material : Option Material
deriving DecidableEq, Repr

/-- The snapshot-capture block of `startAnimation` (lines 146-162):
scale/rotation/position clones, plus the material block when a material is
present (`mat.emissive?.clone()` of an absent emissive stays absent). -/
def captureInitialValues (o : Obj3D) : InitialValues :=
  { scale := o.scale
    rotation := o.rotation
    position := o.position
    material := o.material.map fun m =>
      { emissive := m.emissive
        emissiveIntensity := m.emissiveIntensity
        opacity := m.opacity
        color := m.color } }

/-- The material half of the restoration block of `_cleanupAnimation`
(lines 397-411): each captured property is copied back under the source's
guards (a colour copy needs the live material to still carry that colour
object; a captured intensity/opacity is written back unconditionally). -/
def restoreMaterial (im m : Material) : Material :=
  let m1 := match im.emissive, m.emissive with
    | some e, some _ => { m with emissive := some e }
    | _, _ => m
  let m2 := match im.emissiveIntensity with
    | some v => { m1 with emissiveIntensity := some v }
    | none => m1
  let m3 := match im.opacity with
    | some v => { m2 with opacity := some v }
    | none => m2
  match im.color, m3.color with
  | some c, some _ => { m3 with color := some c }
  | _, _ => m3

/-- The restoration block of `_cleanupAnimation` (lines 390-412).  Scale and
rotation are copied back; the source deliberately skips position ("position
is typically managed by force graph, don't restore"); the material
properties go through `restoreMaterial` when both the snapshot and the live
object still have a material. -/
def restoreInitialValues (iv : InitialValues) (o : Obj3D) : Obj3D :=
  let o1 := { o with scale := iv.scale, rotation := iv.rotation }
  match iv.material, o1.material with
  | some im, some m => { o1 with material := some (restoreMaterial im m) }
  | _, _ => o1

/-! ## Options

JS option objects are partial: a record of `Option` fields, merged
right-biased per key exactly like object spread (a key present on the right
wins).  The `easing` option is modelled as an easing name; the resolved
`easingFn` is stored as the name `getEasing` resolves to (function-valued
easing options collapse to names; no claim exercises them). -/

structure OptPatch where
  loop : Option Bool
  duration : Option ℚ
  easing : Option String
  transitionDuration : Option ℚ
  easingFn : Option String
deriving DecidableEq, Repr

/-- `{}`: the empty option object. -/
def emptyPatch : OptPatch :=
  { loop := none, duration := none, easing := none,
    transitionDuration := none, easingFn := none }

/-- Right-biased per-field merge: `{...a, ...b}`. -/
def oMerge {α : Type} (a b : Option α) : Option α :=
  match b with
  | some v => some v
  | none => a

def patchMerge (a b : OptPatch) : OptPatch :=
  { loop := oMerge a.loop b.loop
    duration := oMerge a.duration b.duration
    easing := oMerge a.easing b.easing
    transitionDuration := oMerge a.transitionDuration b.transitionDuration
    easingFn := oMerge a.easingFn b.easingFn }

/-- The base defaults of `startAnimation` (lines 129-136):
`{loop: true, duration: 1, easing: 'linear', transitionDuration: 0.2}`. -/
def baseDefaults : OptPatch :=
  { loop := some true, duration := some 1, easing := some "linear",
    transitionDuration := some (1/5), easingFn := none }

/-- The names of the easing table in animations/easing.js. -/
def easingNames : List String :=
  ["linear", "easeInQuad", "easeOutQuad", "easeInOutQuad", "easeOutCubic",
   "easeInCubic", "easeInOutCubic", "easeOutElastic", "easeOutBounce"]

/-- `getEasing`: a known name resolves to itself, anything else falls back
to linear (`easing[name] || easing.linear`). -/
def getEasing (nm : String) : String :=
  if nm ∈ easingNames then nm else "linear"

/-! ## Animation instances and the registry -/

/-- Opaque per-instance state blob (owned by the animation type's
update/init/cleanup callbacks; a list of rationals is expressive enough for
the built-in animations and stays decidable). -/
abbrev AState := List ℚ

/-- A registered animation type (`_animationTypes` entry, lines 56-61).
`update(object, state, deltaTime, options, transitionProgress)` may mutate
the object and may throw; `init(object, options)` may mutate the object and
returns the initial state; `cleanup(object, state, options)` mutates the
object.  (The source also guards a throwing cleanup with try/catch and
continues into restoration; a cleanup that throws after partially mutating
the object is not representable here, so cleanup is total.) -/
structure AnimTypeDef where
  update : Obj3D → AState → ℚ → OptPatch → ℚ → Except Unit (Obj3D × AState)
  defaultOptions : OptPatch
  init : Option (Obj3D → OptPatch → Obj3D × AState)
  cleanup : Option (Obj3D → AState → OptPatch → Obj3D)

structure Instance where
  id : ℕ
  name : String
  state : AState
  options : OptPatch
  startTime : ℚ
  stopping : Bool
  stopStartTime : ℚ
  initialValues : InitialValues
  transitionProgress : ℚ
deriving DecidableEq, Repr

/-- The whole mutable state touched by the AnimationManager: its registry
and animated-object set, the module-level `objectAnimations` WeakMap and
`animationIdCounter`, and the scene objects themselves (heap keyed by
object identity). -/
structure World where
  animationTypes : List (String × AnimTypeDef)
  objects : List (ℕ × Obj3D)
  objectAnimations : List (ℕ × List Instance)
  animatedObjects : List ℕ
  animationIdCounter : ℕ

/-! ## AnimationManager operations -/

/-- `unregisterAnimation(name)` (lines 69-71): delete from the registry,
report whether a descriptor existed. -/
def unregisterAnimation (w : World) (name : String) : World × Bool :=
  ({ w with animationTypes := ldel w.animationTypes name },
   (lget w.animationTypes name).isSome)

/-- `registerAnimation(name, config)` (lines 48-62): reject an empty name
(the non-function-update rejection is ruled out by typing), overwrite any
prior descriptor (`config.defaultOptions || {}`). -/
def registerAnimation (w : World) (name : String) (d : AnimTypeDef) :
    Except String World :=
  if name = "" then .error "Animation name must be a non-empty string"
  else .ok { w with animationTypes := lset w.animationTypes name d }

/-- The `animations.find(a => a.name === animationName && !a.stopping)` test
of `startAnimation` line 121. -/
def isLiveNamed (name : String) (a : Instance) : Bool :=
  a.name = name && !a.stopping

/-- In-place option replacement on the first live instance of the name
(`existing.options = { ...animType.defaultOptions, ...options }`). -/
def updateExisting (name : String) (newOpts : OptPatch) :
    List Instance → List Instance
  | [] => []
  | a :: rest =>
    if isLiveNamed name a then { a with options := newOpts } :: rest
    else a :: updateExisting name newOpts rest

/-- `startAnimation(object, animationName, options)` (lines 101-181).
Returns the updated world and the instance id (-1 on the warned failure
paths). -/
def startAnimation (w : World) (objId : Option ℕ) (animationName : String)
    (options : OptPatch) (now : ℚ) : World × Int :=
  match objId with
  | none => (w, -1)
  | some oid =>
  match lget w.objects oid with
  | none => (w, -1)
  | some o =>
  match lget w.animationTypes animationName with
  | none => (w, -1)
  | some animType =>
    let animations := (lget w.objectAnimations oid).getD []
    match animations.find? (fun a => isLiveNamed animationName a) with
    | some existing =>
      let animations' :=
        updateExisting animationName
          (patchMerge animType.defaultOptions options) animations
      ({ w with objectAnimations := lset w.objectAnimations oid animations' },
       Int.ofNat existing.id)
    | none =>
      let merged0 :=
        patchMerge (patchMerge baseDefaults animType.defaultOptions) options
      let mergedOptions :=
        { merged0 with easingFn := some (getEasing (merged0.easing.getD "linear")) }
      let initRes := match animType.init with
        | some f => f o mergedOptions
        | none => (o, [])
      let o1 := initRes.1
      let initialValues := captureInitialValues o1
      let newId := w.animationIdCounter + 1
      let inst : Instance :=
        { id := newId, name := animationName, state := initRes.2,
          options := mergedOptions, startTime := now, stopping := false,
          stopStartTime := 0, initialValues := initialValues,
          transitionProgress := 0 }
      ({ w with
          objects := lset w.objects oid o1
          objectAnimations := lset w.objectAnimations oid (animations ++ [inst])
          animatedObjects := addUnique w.animatedObjects oid
          animationIdCounter := newId },
       Int.ofNat newId)

/-- The custom-cleanup half of `_cleanupAnimation` (lines 379-388): fresh
registry lookup, run the type's cleanup callback if defined. -/
def applyCleanup (types : List (String × AnimTypeDef)) (o : Obj3D)
    (a : Instance) : Obj3D :=
  match lget types a.name with
  | some ty =>
    match ty.cleanup with
    | some f => f o a.state a.options
    | none => o
  | none => o

/-- `_cleanupAnimation(object, anim)` (lines 378-413): run the custom
cleanup, then reapply the restoration snapshot. -/
def cleanupAnimation (types : List (String × AnimTypeDef)) (o : Obj3D)
    (a : Instance) : Obj3D :=
  restoreInitialValues a.initialValues (applyCleanup types o a)

/-- The selector of `stopAnimation`: omitted matches everything, a string
matches by name, a number matches by id (in JS both `===` comparisons are
tried; the cross-typed one is always false). -/
def selMatches (sel : Option (String ⊕ ℕ)) (a : Instance) : Bool :=
  match sel with
  | none => true
  | some (.inl nm) => a.name = nm
  | some (.inr i) => a.id = i

/-- The reverse `for` loop of `stopAnimation` (lines 198-214): indices are
visited from high to low, so the list tail is processed first; a matching
non-stopping instance is either cleaned up and spliced out (immediate) or
marked stopping. -/
def stopList (types : List (String × AnimTypeDef)) (sel : Option (String ⊕ ℕ))
    (immediate : Bool) (now : ℚ) :
    List Instance → Obj3D → List Instance × Obj3D
  | [], o => ([], o)
  | a :: rest, o =>
    let r := stopList types sel immediate now rest o
    if selMatches sel a && !a.stopping then
      if immediate then (r.1, cleanupAnimation types r.2 a)
      else ({ a with stopping := true, stopStartTime := now } :: r.1, r.2)
    else (a :: r.1, r.2)

/-- `stopAnimation(object, animationNameOrId, immediate)` (lines 189-221). -/
def stopAnimation (w : World) (objId : Option ℕ) (sel : Option (String ⊕ ℕ))
    (immediate : Bool) (now : ℚ) : World :=
  match objId with
  | none => w
  | some oid =>
  match lget w.objects oid with
  | none => w
  | some o =>
  match lget w.objectAnimations oid with
  | none => w
  | some animations =>
    if animations.isEmpty then w
    else
      let r := stopList w.animationTypes sel immediate now animations o
      let w1 := { w with objects := lset w.objects oid r.2 }
      if r.1.isEmpty then
        { w1 with
            animatedObjects := w1.animatedObjects.erase oid
            objectAnimations := ldel w1.objectAnimations oid }
      else { w1 with objectAnimations := lset w1.objectAnimations oid r.1 }

/-- `isAnimating(object, animationName)` (lines 261-271); an omitted (or
JS-falsy) name checks for any non-stopping instance. -/
def isAnimating (w : World) (objId : Option ℕ) (animationName : Option String) :
    Bool :=
  match objId with
  | none => false
  | some oid =>
  match lget w.objectAnimations oid with
  | none => false
  | some animations =>
    if animations.isEmpty then false
    else match animationName with
      | some nm => animations.any (fun a => a.name = nm && !a.stopping)
      | none => animations.any (fun a => !a.stopping)

/-- Reading `anim.options.transitionDuration` as a rational (see the header
note on absent numeric fields). -/
def tdOf (o : OptPatch) : ℚ := o.transitionDuration.getD 0

/-- `elapsed >= anim.options.duration` with the JS rule that a comparison
against undefined is false. -/
def geOpt (a : ℚ) (b : Option ℚ) : Bool :=
  match b with
  | some q => decide (a ≥ q)
  | none => false

/-- The reverse per-instance loop of `tick` (lines 310-364): tail (higher
indices) first.  Steps per instance: force-removal when the type descriptor
is gone; transition-in advance; transition-out with cleanup+removal at full
stop progress; auto-stop of expired non-looping instances (note the source
re-runs this assignment even when already stopping); the guarded update
call, whose throw removes the instance without cleanup. -/
def tickList (types : List (String × AnimTypeDef)) (deltaTime now : ℚ) :
    List Instance → Obj3D → List Instance × Obj3D
  | [], o => ([], o)
  | a0 :: rest, o =>
    let r := tickList types deltaTime now rest o
    match lget types a0.name with
    | none => (r.1, r.2)
    | some animType =>
      let tpIn := min 1 (a0.transitionProgress + deltaTime / tdOf a0.options)
      let a1 := if a0.transitionProgress < 1 ∧ a0.stopping = false then
          { a0 with transitionProgress := tpIn }
        else a0
      let stopProgress := min 1 ((now - a1.stopStartTime) / tdOf a1.options)
      if a1.stopping = true ∧ stopProgress ≥ 1 then
        (r.1, cleanupAnimation types r.2 a1)
      else
        let a2 := if a1.stopping = true then
            { a1 with transitionProgress := 1 - stopProgress }
          else a1
        let a3 := if (a2.options.loop.getD false) = false ∧
              geOpt (now - a2.startTime) a2.options.duration = true then
            { a2 with stopping := true, stopStartTime := now }
          else a2
        match animType.update r.2 a3.state deltaTime a3.options
            a3.transitionProgress with
        | .ok res => ({ a3 with state := res.2 } :: r.1, res.1)
        | .error _ => (r.1, r.2)

/-- One object's pass inside `tick`, including the drop-from-tracking of an
object left with no instances (lines 305-371). -/
def tickObject (deltaTime now : ℚ) (w : World) (oid : ℕ) : World :=
  match lget w.objectAnimations oid with
  | none => w
  | some animations =>
  match lget w.objects oid with
  | none => w
  | some o =>
    let r := tickList w.animationTypes deltaTime now animations o
    let w1 := { w with objects := lset w.objects oid r.2 }
    if r.1.isEmpty then
      { w1 with
          animatedObjects := w1.animatedObjects.erase oid
          objectAnimations := ldel w1.objectAnimations oid }
    else { w1 with objectAnimations := lset w1.objectAnimations oid r.1 }

/-- `tick(deltaTime)` (lines 302-372): visit the animated-object set in
insertion order. -/
def tick (w : World) (deltaTime now : ℚ) : World :=
  w.animatedObjects.foldl (tickObject deltaTime now) w

/-! ## NodeObjectFactory

Graphics resources (geometries, materials) are numeric resource ids; scene
objects of the factory are records in a heap keyed by numeric object
identity (an object reference).  The geometry/material caches are JS Maps
whose keys are untyped, so the key type `JsKey` covers both the string keys
the cache API is used with and the resource values that `_disposeObject`
passes to `Map.has`; a call to `dispose()` on a resource is recorded in the
`disposed` trace, and an invocation of a registered creator is recorded in
the `creatorRuns` trace (the `geomRuns` / `matRuns` counters likewise count
the cache-miss invocations of the creation callbacks). -/

/-- An untyped JS Map key: a string, a resource reference, or an array of
resource references. -/
inductive JsKey where
  | str (s : String)
  | res (r : ℕ)
  | resList (rs : List ℕ)
deriving DecidableEq, Repr

/-- `obj.material`: a single material or an array of materials. -/
inductive MatRef where
  | single (r : ℕ)
  | array (rs : List ℕ)
deriving DecidableEq, Repr

/-- The fields of a factory-managed THREE object that the factory touches. -/
structure FObj where
  geometry : Option ℕ
  material : Option MatRef
  visible : Bool
deriving DecidableEq, Repr

/-- A data node: an optional id and its string attributes (the factory reads
the attribute named by `typeAttribute`, default `nodeThreeObjectType`). -/
structure Node where
  id : Option ℕ
  attrs : List (String × String)
deriving DecidableEq, Repr

/-- Active-object-table key: `node.id !== undefined ? node.id : node`. -/
inductive NKey where
  | idKey (n : ℕ)
  | nodeRef (node : Node)
deriving DecidableEq, Repr

def nodeKey (node : Node) : NKey :=
  match node.id with
  | some n => .idKey n
  | none => .nodeRef node

/-- The caches a creator function can reach through the factory reference,
plus instrumentation: `fresh` allocates resource ids, `geomRuns`/`matRuns`
count cache-miss invocations of creation callbacks. -/
structure Caches where
  geometryCache : List (JsKey × ℕ)
  materialCache : List (JsKey × ℕ)
  fresh : ℕ
  geomRuns : ℕ
  matRuns : ℕ

/-- `getGeometry(key, createFn)` (lines 539-544): get-or-create; the
creation callback may itself touch the caches. -/
def getGeometry (c : Caches) (key : JsKey) (createFn : Caches → Caches × ℕ) :
    Caches × ℕ :=
  match lget c.geometryCache key with
  | some r => (c, r)
  | none =>
    let cr := createFn c
    ({ cr.1 with geometryCache := lset cr.1.geometryCache key cr.2,
                 geomRuns := cr.1.geomRuns + 1 }, cr.2)

/-- `getMaterial(key, createFn)` (lines 552-557). -/
def getMaterial (c : Caches) (key : JsKey) (createFn : Caches → Caches × ℕ) :
    Caches × ℕ :=
  match lget c.materialCache key with
  | some r => (c, r)
  | none =>
    let cr := createFn c
    ({ cr.1 with materialCache := lset cr.1.materialCache key cr.2,
                 matRuns := cr.1.matRuns + 1 }, cr.2)

/-- A registered creator: `creatorFn(node, THREE, factory)`; it sees the
caches through the factory reference, may throw, and yields the new
object's fields. -/
abbrev CreatorFn := Node → Caches → Except Unit (Caches × FObj)

structure Factory where
  typeRegistry : List (String × CreatorFn)
  objectPools : List (String × List ℕ)
  activeObjects : List (NKey × ℕ × String)
  caches : Caches
  objHeap : List (ℕ × FObj)
  objFresh : ℕ
  disposed : List ℕ
  creatorRuns : List String

/-- Set the `visible` flag of a heap object. -/
def heapSetVisible (h : List (ℕ × FObj)) (objId : ℕ) (v : Bool) :
    List (ℕ × FObj) :=
  match lget h objId with
  | none => h
  | some obj => lset h objId { obj with visible := v }

/-- `registerType(typeName, creatorFn)` (lines 487-499): reject an empty
name (non-callable creators are ruled out by typing), then register and
lazily initialise the pool. -/
def registerType (f : Factory) (typeName : String) (creatorFn : CreatorFn) :
    Except String Factory :=
  if typeName = "" then .error "typeName must be a non-empty string"
  else
    let f1 := { f with typeRegistry := lset f.typeRegistry typeName creatorFn }
    if (lget f1.objectPools typeName).isSome then .ok f1
    else .ok { f1 with objectPools := lset f1.objectPools typeName [] }

/-- The resource ids `_disposeObject(obj)` (lines 627-638) passes to
`dispose()`.  The source tests `this._geometryCache.has(obj.geometry)` /
`this._materialCache.has(obj.material)`: a `Map.has` over the caches'
*keys*, applied to a resource reference. -/
def disposeResIds (caches : Caches) (h : List (ℕ × FObj)) (objId : ℕ) :
    List ℕ :=
  match lget h objId with
  | none => []
  | some obj =>
    let gs := match obj.geometry with
      | some g =>
        if (lget caches.geometryCache (.res g)).isSome then [] else [g]
      | none => []
    let ms := match obj.material with
      | some (.single m) =>
        if (lget caches.materialCache (.res m)).isSome then [] else [m]
      | some (.array rs) =>
        if (lget caches.materialCache (.resList rs)).isSome then [] else rs
      | none => []
    gs ++ ms

/-- `_disposeObject(obj)`: record the dispose calls in the trace. -/
def disposeObject (f : Factory) (objId : ℕ) : Factory :=
  { f with disposed := f.disposed ++ disposeResIds f.caches f.objHeap objId }

/-- `createObject(node, THREE, typeAttribute)` (lines 566-602); its
`typeAttribute` parameter defaults to "nodeThreeObjectType" at the source's
call sites. -/
def createObject (f : Factory) (node : Node) (typeAttribute : String) :
    Factory × Option ℕ :=
  match lget node.attrs typeAttribute with
  | none => (f, none)
  | some typeName =>
  match lget f.typeRegistry typeName with
  | none => (f, none)
  | some creatorFn =>
    let pool := lget f.objectPools typeName
    let popped : Option ℕ := match pool with
      | some l => l.getLast?
      | none => none
    match popped with
    | some objId =>
      let f1 := { f with
        objectPools := lset f.objectPools typeName (pool.getD []).dropLast
        objHeap := heapSetVisible f.objHeap objId true }
      ({ f1 with
          activeObjects := lset f1.activeObjects (nodeKey node)
            (objId, typeName) }, some objId)
    | none =>
      match creatorFn node f.caches with
      | .error _ => ({ f with creatorRuns := f.creatorRuns ++ [typeName] }, none)
      | .ok res =>
        let objId := f.objFresh
        let f1 := { f with
          caches := res.1
          objHeap := f.objHeap ++ [(objId, res.2)]
          objFresh := f.objFresh + 1
          creatorRuns := f.creatorRuns ++ [typeName] }
        ({ f1 with
            activeObjects := lset f1.activeObjects (nodeKey node)
              (objId, typeName) }, some objId)

/-- `releaseObject(nodeId)` (lines 608-621). -/
def releaseObject (f : Factory) (nodeId : NKey) : Factory :=
  match lget f.activeObjects nodeId with
  | none => f
  | some entry =>
    let f1 := { f with objHeap := heapSetVisible f.objHeap entry.1 false }
    let f2 := match lget f1.objectPools entry.2 with
      | some pool =>
        { f1 with objectPools := lset f1.objectPools entry.2 (pool ++ [entry.1]) }
      | none => f1
    { f2 with activeObjects := ldel f2.activeObjects nodeId }

/-- `unregisterType(typeName)` (lines 506-514). -/
def unregisterType (f : Factory) (typeName : String) : Factory × Bool :=
  let f1 := match lget f.objectPools typeName with
    | some pool =>
      let fd := pool.foldl disposeObject f
      { fd with objectPools := ldel fd.objectPools typeName }
    | none => f
  ({ f1 with typeRegistry := ldel f1.typeRegistry typeName },
   (lget f1.typeRegistry typeName).isSome)

/-- `clearPools()` (lines 643-648): dispose every pooled object, empty each
pool in place (the pool entries stay in the map). -/
def clearPools (f : Factory) : Factory :=
  f.objectPools.foldl
    (fun acc p =>
      let fd := p.2.foldl disposeObject acc
      { fd with objectPools := lset fd.objectPools p.1 [] }) f

/-- `clear()` (lines 653-658). -/
def factoryClear (f : Factory) : Factory :=
  let f1 := clearPools f
  { f1 with typeRegistry := [], objectPools := [], activeObjects := [] }

/-- `disposeCache()` (lines 663-669): dispose every cached geometry, clear
the geometry cache, then the same for materials. -/
def disposeCache (f : Factory) : Factory :=
  let f1 := { f with
    disposed := f.disposed ++ f.caches.geometryCache.map
      (fun p : JsKey × ℕ => p.2)
    caches := { f.caches with geometryCache := [] } }
  { f1 with
    disposed := f1.disposed ++ f1.caches.materialCache.map
      (fun p : JsKey × ℕ => p.2)
    caches := { f1.caches with materialCache := [] } }

/-! ## Fixtures used by individual claims -/

def emptyCaches : Caches :=
  { geometryCache := [], materialCache := [], fresh := 0,
    geomRuns := 0, matRuns := 0 }

/-- A factory holding one pooled "cube" object (id 5) whose geometry is the
cached geometry stored under key "g" (resource 7) and whose material is the
cached material stored under key "m" (resource 9) — the situation produced
by a creator that built its mesh from `getGeometry`/`getMaterial` results
and whose object was later released to the pool. -/
def pooledSharedFactory : Factory :=
  { typeRegistry :=
      [("cube", fun _ c =>
        .ok (c, { geometry := some 7, material := some (.single 9),
                  visible := true }))]
    objectPools := [("cube", [5])]
    activeObjects := []
    caches := { geometryCache := [(.str "g", 7)]
                materialCache := [(.str "m", 9)]
                fresh := 10, geomRuns := 1, matRuns := 1 }
    objHeap := [(5, { geometry := some 7, material := some (.single 9),
                      visible := false })]
    objFresh := 6
    disposed := []
    creatorRuns := [] }

/-- A factory with two pooled "cone" objects (ids 11 and 12, hidden) and a
registered creator; used to witness the pool-reuse theorem. -/
def pooledConeFactory : Factory :=
  { typeRegistry :=
      [("cone", fun _ c =>
        .ok (c, { geometry := some 3, material := none, visible := true }))]
    objectPools := [("cone", [11, 12])]
    activeObjects := []
    caches := emptyCaches
    objHeap := [(11, { geometry := some 3, material := none, visible := false }),
                (12, { geometry := some 3, material := none, visible := false })]
    objFresh := 13
    disposed := []
    creatorRuns := [] }

/-- A factory tracking node id 2 as holding object 12 of type "cone"; used
to witness the release-then-create half of the pool-reuse theorem. -/
def trackedConeFactory : Factory :=
  { typeRegistry :=
      [("cone", fun _ c =>
        .ok (c, { geometry := some 3, material := none, visible := true }))]
    objectPools := [("cone", [11])]
    activeObjects := [(.idKey 2, (12, "cone"))]
    caches := emptyCaches
    objHeap := [(11, { geometry := some 3, material := none, visible := false }),
                (12, { geometry := some 3, material := none, visible := true })]
    objFresh := 13
    disposed := []
    creatorRuns := [] }

def coneNode : Node :=
  { id := some 1, attrs := [("nodeThreeObjectType", "cone")] }

def coneNode2 : Node :=
  { id := some 3, attrs := [("nodeThreeObjectType", "cone")] }

/-- A neutral scene object. -/
def baseObj : Obj3D :=
  { scale := ⟨1, 1, 1⟩, rotation := ⟨0, 0, 0⟩, position := ⟨0, 0, 0⟩,
    material := none }

/-- An animation type whose update is the identity and which carries no
default options, init or cleanup. -/
def idleType : AnimTypeDef :=
  { update := fun o s _ _ _ => .ok (o, s), defaultOptions := emptyPatch,
    init := none, cleanup := none }

/-- A world with the "pulse" type registered and one scene object (id 0),
nothing animated yet. -/
def pulseWorld0 : World :=
  { animationTypes := [("pulse", idleType)]
    objects := [(0, baseObj)]
    objectAnimations := []
    animatedObjects := []
    animationIdCounter := 0 }

/-- `pulseWorld0` after `startAnimation(obj0, 'pulse', {duration: 5})` at
time 0: one instance (id 1) with fully resolved options. -/
def pulseWorld1 : World :=
  (startAnimation pulseWorld0 (some 0) "pulse"
    { emptyPatch with duration := some 5 } 0).1

/-- The resolved options of the instance in `pulseWorld1`. -/
def pulseResolvedOpts : OptPatch :=
  { loop := some true, duration := some 5, easing := some "linear",
    transitionDuration := some (1/5), easingFn := some "linear" }

/-- The single instance living in `pulseWorld1`. -/
def pulseInstance1 : Instance :=
  { id := 1, name := "pulse", state := [], options := pulseResolvedOpts,
    startTime := 0, stopping := false, stopStartTime := 0,
    initialValues := captureInitialValues baseObj, transitionProgress := 0 }

def pulseInstanceList : List Instance := [pulseInstance1]

/-- A live looping "pulse" instance with transition duration 1/4 and
transition-progress 0, as freshly produced by `startAnimation`. -/
def liveLoopInstance : Instance :=
  { id := 1, name := "pulse", state := []
    options := { loop := some true, duration := some 1,
                 easing := some "linear", transitionDuration := some (1/4),
                 easingFn := some "linear" }
    startTime := 0, stopping := false, stopStartTime := 0
    initialValues := captureInitialValues baseObj, transitionProgress := 0 }

/-- A live "spin" instance analogous to `liveLoopInstance`. -/
def spinInstance : Instance :=
  { id := 2, name := "spin", state := []
    options := { loop := some true, duration := some 1,
                 easing := some "linear", transitionDuration := some (1/4),
                 easingFn := some "linear" }
    startTime := 0, stopping := false, stopStartTime := 0
    initialValues := captureInitialValues baseObj, transitionProgress := 0 }

/-- A fresh non-looping "pulse" instance: duration 3/10 s, transition
duration 1/5 s, started at time 0. -/
def expiringInstance : Instance :=
  { id := 3, name := "pulse", state := []
    options := { loop := some false, duration := some (3/10),
                 easing := some "linear", transitionDuration := some (1/5),
                 easingFn := some "linear" }
    startTime := 0, stopping := false, stopStartTime := 0
    initialValues := captureInitialValues baseObj, transitionProgress := 0 }

/-- `expiringInstance` in its stopping state with the given
transition-progress and stop-start time. -/
def stoppingAt (tp sst : ℚ) : Instance :=
  { expiringInstance with
      transitionProgress := tp, stopping := true, stopStartTime := sst }

/-- An animation type whose update always throws. -/
def throwType : AnimTypeDef :=
  { update := fun _ _ _ _ _ => .error (), defaultOptions := emptyPatch,
    init := none, cleanup := none }

/-- `liveLoopInstance` with its ease-in transition completed. -/
def steadyInstance : Instance :=
  { liveLoopInstance with transitionProgress := 1 }

/-- A second steady instance (id 9) for the independent object. -/
def steadyInstance2 : Instance :=
  { liveLoopInstance with id := 9, transitionProgress := 1 }

/-- A live instance of the always-throwing type "bad". -/
def throwInstance : Instance :=
  { id := 7, name := "bad", state := []
    options := { loop := some true, duration := some 1,
                 easing := some "linear", transitionDuration := some (1/5),
                 easingFn := some "linear" }
    startTime := 0, stopping := false, stopStartTime := 0
    initialValues := captureInitialValues baseObj, transitionProgress := 0 }

/-- A world with two animated objects (ids 0 and 1) carrying the given
instance lists. -/
def twoWorld (types : List (String × AnimTypeDef)) (o1 o2 : Obj3D)
    (l1 l2 : List Instance) : World :=
  { animationTypes := types
    objects := [(0, o1), (1, o2)]
    objectAnimations := [(0, l1), (1, l2)]
    animatedObjects := [0, 1]
    animationIdCounter := 0 }

/-- A world holding exactly one animated object with exactly one instance. -/
def singleWorld (types : List (String × AnimTypeDef)) (oid : ℕ) (o : Obj3D)
    (a : Instance) : World :=
  { animationTypes := types
    objects := [(oid, o)]
    objectAnimations := [(oid, [a])]
    animatedObjects := [oid]
    animationIdCounter := a.id }

/-- A world holding one animated object with an arbitrary instance list. -/
def listWorld (types : List (String × AnimTypeDef)) (oid : ℕ) (o : Obj3D)
    (l : List Instance) : World :=
  { animationTypes := types
    objects := [(oid, o)]
    objectAnimations := [(oid, l)]
    animatedObjects := [oid]
    animationIdCounter := 0 }

/-- An animation type whose update moves the object to x = 99 (a
position-animating behaviour such as a hover bounce). -/
def moveType : AnimTypeDef :=
  { update := fun o s _ _ _ => .ok ({ o with position := ⟨99, 0, 0⟩ }, s)
    defaultOptions := emptyPatch, init := none, cleanup := none }

/-- A world with the position-moving type "mv" registered and one scene
object at the origin. -/
def moveWorld0 : World :=
  { animationTypes := [("mv", moveType)]
    objects := [(0, baseObj)]
    objectAnimations := []
    animatedObjects := []
    animationIdCounter := 0 }

/-- Iterate `tick` with a fixed frame delta; the wall-clock value of the
k-th tick is `nows k`. -/
def iterateTicks (dt : ℚ) (nows : ℕ → ℚ) : ℕ → World → World
  | 0, w => w
  | n + 1, w => tick (iterateTicks dt nows n w) dt (nows n)

/-- An object with a full material, as captured at animation start. -/
def matObj : Obj3D :=
  { scale := ⟨2, 2, 2⟩, rotation := ⟨0, 0, 0⟩, position := ⟨5, 0, 0⟩
    material := some { emissive := some ⟨1, 0, 0⟩
                       emissiveIntensity := some (1/2)
                       opacity := some (3/4)
                       color := some ⟨0, 1, 0⟩ } }

/-- `matObj` after an animation mutated every property. -/
def mutObj : Obj3D :=
  { scale := ⟨9, 9, 9⟩, rotation := ⟨1, 1, 1⟩, position := ⟨7, 0, 0⟩
    material := some { emissive := some ⟨0, 0, 1⟩
                       emissiveIntensity := some 5
                       opacity := some (1/8)
                       color := some ⟨1, 1, 1⟩ } }

/-- A live "glow" instance whose restoration snapshot was captured from
`matObj`. -/
def glowInstance : Instance :=
  { id := 4, name := "glow", state := []
    options := { loop := some true, duration := some 1,
                 easing := some "linear", transitionDuration := some (1/5),
                 easingFn := some "linear" }
    startTime := 0, stopping := false, stopStartTime := 0
    initialValues := captureInitialValues matObj, transitionProgress := 1 }

/-! ## Helper lemmas on the Map primitives -/

theorem lget_lset_self {α β : Type} [DecidableEq α] (l : List (α × β))
    (k : α) (v : β) : lget (lset l k v) k = some v := by
  induction l with
  | nil => simp [lget, lset]
  | cons p rest ih =>
    by_cases h : k = p.1 <;> simp [lget, lset, h, ih]

theorem lget_lset_ne {α β : Type} [DecidableEq α] (l : List (α × β))
    (k k' : α) (v : β) (h : k' ≠ k) : lget (lset l k v) k' = lget l k' := by
  induction l with
  | nil => simp [lget, lset, h]
  | cons p rest ih =>
    by_cases hk : k = p.1
    · subst hk
      simp [lget, lset, h]
    · by_cases hk' : k' = p.1 <;> simp [lget, lset, hk, hk', ih]

theorem lget_eq_none_of_not_mem {α β : Type} [DecidableEq α]
    (l : List (α × β)) (k : α) (h : k ∉ l.map Prod.fst) :
    lget l k = none := by
  induction l with
  | nil => rfl
  | cons p rest ih =>
    simp only [List.map_cons, List.mem_cons] at h
    push_neg at h
    simp [lget, h.1, ih h.2]

theorem lget_ldel_self {α β : Type} [DecidableEq α] (l : List (α × β))
    (k : α) (h : (l.map Prod.fst).Nodup) : lget (ldel l k) k = none := by
  induction l with
  | nil => rfl
  | cons p rest ih =>
    simp only [List.map_cons, List.nodup_cons] at h
    by_cases hk : k = p.1
    · subst hk
      simp [ldel, lget_eq_none_of_not_mem rest p.1 h.1]
    · simp [ldel, lget, hk, ih h.2]

/-! # Theorems on the claims -/

/-- C3 (violated by the code): the pool-teardown guard
`!this._geometryCache.has(obj.geometry)` tests the resource reference
against the caches' *string keys*, so it never succeeds, and
`unregisterType` disposes a pooled object's geometry (7) and material (9)
even though both are shared resources stored in the caches (under keys "g"
and "m"). -/
theorem unregisterType_disposes_cached_resources :
    lget pooledSharedFactory.caches.geometryCache (JsKey.str "g") = some 7 ∧
    lget pooledSharedFactory.caches.materialCache (JsKey.str "m") = some 9 ∧
    lget pooledSharedFactory.objectPools "cube" = some [5] ∧
    (lget pooledSharedFactory.objHeap 5).map FObj.geometry = some (some 7) ∧
    (lget pooledSharedFactory.objHeap 5).map FObj.material
      = some (some (.single 9)) ∧
    (unregisterType pooledSharedFactory "cube").1.disposed = [7, 9] := by
  decide

/-- C8: `getGeometry`/`getMaterial` are memoized get-or-create caches: a
call on a cached key returns the cached resource untouched (for any
creation callback), a first call for a key runs the creation callback
exactly once and returns its resource, a different key runs its own
callback once and returns its own resource, and the two caches are
separate.  Creation-callback invocations are counted by the `geomRuns` /
`matRuns` instrumentation. -/
theorem getGeometry_getMaterial_memoize
    (c : Caches) (k1 k2 : String) (f g fm : Caches → Caches × ℕ)
    (rf rg rm : ℕ)
    (hk : k1 ≠ k2)
    (h1 : lget c.geometryCache (JsKey.str k1) = none)
    (h2 : lget c.geometryCache (JsKey.str k2) = none)
    (hm1 : lget c.materialCache (JsKey.str k1) = none)
    (hf : ∀ cc, f cc = (cc, rf))
    (hg : ∀ cc, g cc = (cc, rg))
    (hfm : ∀ cc, fm cc = (cc, rm)) :
    (∀ (c' : Caches) (k : JsKey) (cf : Caches → Caches × ℕ) (r : ℕ),
        lget c'.geometryCache k = some r → getGeometry c' k cf = (c', r)) ∧
    (∀ (c' : Caches) (k : JsKey) (cf : Caches → Caches × ℕ) (r : ℕ),
        lget c'.materialCache k = some r → getMaterial c' k cf = (c', r)) ∧
    (getGeometry c (JsKey.str k1) f).2 = rf ∧
    (getGeometry c (JsKey.str k1) f).1.geomRuns = c.geomRuns + 1 ∧
    getGeometry (getGeometry c (JsKey.str k1) f).1 (JsKey.str k1) g
      = ((getGeometry c (JsKey.str k1) f).1, rf) ∧
    (getGeometry (getGeometry c (JsKey.str k1) f).1 (JsKey.str k2) g).2 = rg ∧
    (getGeometry (getGeometry c (JsKey.str k1) f).1 (JsKey.str k2) g).1.geomRuns
      = c.geomRuns + 2 ∧
    (getMaterial c (JsKey.str k1) fm).2 = rm ∧
    (getMaterial c (JsKey.str k1) fm).1.matRuns = c.matRuns + 1 ∧
    (getMaterial c (JsKey.str k1) fm).1.geometryCache = c.geometryCache := by
  have hstr : (JsKey.str k2) ≠ (JsKey.str k1) := by
    intro h
    exact hk (by injection h.symm)
  refine ⟨?_, ?_, ?_, ?_, ?_, ?_, ?_, ?_, ?_, ?_⟩
  · intro c' k cf r hr
    simp [getGeometry, hr]
  · intro c' k cf r hr
    simp [getMaterial, hr]
  · simp [getGeometry, h1, hf]
  · simp [getGeometry, h1, hf]
  · simp [getGeometry, h1, hf, lget_lset_self]
  · simp [getGeometry, h1, hf, hg, lget_lset_ne _ _ _ _ hstr, h2]
  · simp [getGeometry, h1, hf, hg, lget_lset_ne _ _ _ _ hstr, h2]
  · simp [getMaterial, hm1, hfm]
  · simp [getMaterial, hm1, hfm]
  · simp [getMaterial, hm1, hfm]

/-- Witness for C8 at concrete inputs: empty caches, keys "a" and "b",
callbacks returning resources 7, 8 and 9. -/
theorem getGeometry_getMaterial_memoize_witness :
    (∀ (c' : Caches) (k : JsKey) (cf : Caches → Caches × ℕ) (r : ℕ),
        lget c'.geometryCache k = some r → getGeometry c' k cf = (c', r)) ∧
    (∀ (c' : Caches) (k : JsKey) (cf : Caches → Caches × ℕ) (r : ℕ),
        lget c'.materialCache k = some r → getMaterial c' k cf = (c', r)) ∧
    (getGeometry emptyCaches (JsKey.str "a") (fun cc => (cc, 7))).2 = 7 ∧
    (getGeometry emptyCaches (JsKey.str "a") (fun cc => (cc, 7))).1.geomRuns
      = emptyCaches.geomRuns + 1 ∧
    getGeometry (getGeometry emptyCaches (JsKey.str "a") (fun cc => (cc, 7))).1
        (JsKey.str "a") (fun cc => (cc, 8))
      = ((getGeometry emptyCaches (JsKey.str "a") (fun cc => (cc, 7))).1, 7) ∧
    (getGeometry (getGeometry emptyCaches (JsKey.str "a") (fun cc => (cc, 7))).1
        (JsKey.str "b") (fun cc => (cc, 8))).2 = 8 ∧
    (getGeometry (getGeometry emptyCaches (JsKey.str "a") (fun cc => (cc, 7))).1
        (JsKey.str "b") (fun cc => (cc, 8))).1.geomRuns
      = emptyCaches.geomRuns + 2 ∧
    (getMaterial emptyCaches (JsKey.str "a") (fun cc => (cc, 9))).2 = 9 ∧
    (getMaterial emptyCaches (JsKey.str "a") (fun cc => (cc, 9))).1.matRuns
      = emptyCaches.matRuns + 1 ∧
    (getMaterial emptyCaches (JsKey.str "a") (fun cc => (cc, 9))).1.geometryCache
      = emptyCaches.geometryCache :=
  getGeometry_getMaterial_memoize emptyCaches "a" "b"
    (fun cc => (cc, 7)) (fun cc => (cc, 8)) (fun cc => (cc, 9)) 7 8 9
    (by decide) rfl rfl rfl (fun cc => rfl) (fun cc => rfl) (fun cc => rfl)

/-- C7: with a pooled object available for the node's declared type,
`createObject` pops the pool, re-activates the popped object (visible =
true), tracks it and returns that exact object without invoking the
registered creator; `releaseObject` on a tracked id hides the object,
pushes it onto its type's pool and removes the id from the Active Object
Table; hence a release followed by a `createObject` of the same type
returns the same object reference. -/
theorem createObject_releaseObject_pool_reuse
    (f : Factory) (node : Node) (T : String) (cf : CreatorFn)
    (pool : List ℕ) (p : ℕ) (obj : FObj)
    (f2 : Factory) (nid : NKey) (q : ℕ) (T2 : String) (cf2 : CreatorFn)
    (pool2 : List ℕ) (ob2 : FObj) (node2 : Node)
    (ht : lget node.attrs "nodeThreeObjectType" = some T)
    (hcf : lget f.typeRegistry T = some cf)
    (hp : lget f.objectPools T = some (pool ++ [p]))
    (hobj : lget f.objHeap p = some obj)
    (ht2 : lget node2.attrs "nodeThreeObjectType" = some T2)
    (hcf2 : lget f2.typeRegistry T2 = some cf2)
    (hact : lget f2.activeObjects nid = some (q, T2))
    (hpool2 : lget f2.objectPools T2 = some pool2)
    (hob2 : lget f2.objHeap q = some ob2)
    (hnodup : (f2.activeObjects.map Prod.fst).Nodup) :
    (createObject f node "nodeThreeObjectType").2 = some p ∧
    (createObject f node "nodeThreeObjectType").1.creatorRuns
      = f.creatorRuns ∧
    lget (createObject f node "nodeThreeObjectType").1.objectPools T
      = some pool ∧
    lget (createObject f node "nodeThreeObjectType").1.objHeap p
      = some { obj with visible := true } ∧
    lget (createObject f node "nodeThreeObjectType").1.activeObjects
      (nodeKey node) = some (p, T) ∧
    lget (releaseObject f2 nid).objHeap q
      = some { ob2 with visible := false } ∧
    lget (releaseObject f2 nid).objectPools T2 = some (pool2 ++ [q]) ∧
    lget (releaseObject f2 nid).activeObjects nid = none ∧
    (createObject (releaseObject f2 nid) node2 "nodeThreeObjectType").2
      = some q ∧
    lget (createObject (releaseObject f2 nid) node2
      "nodeThreeObjectType").1.objHeap q = some { ob2 with visible := true } := by
  refine ⟨?_, ?_, ?_, ?_, ?_, ?_, ?_, ?_, ?_, ?_⟩
  · simp [createObject, ht, hcf, hp]
  · simp [createObject, ht, hcf, hp]
  · simp [createObject, ht, hcf, hp, lget_lset_self]
  · simp [createObject, ht, hcf, hp, heapSetVisible, hobj, lget_lset_self]
  · simp [createObject, ht, hcf, hp, lget_lset_self]
  · simp [releaseObject, hact, heapSetVisible, hob2, hpool2, lget_lset_self]
  · simp [releaseObject, hact, heapSetVisible, hob2, hpool2, lget_lset_self]
  · simp [releaseObject, hact, heapSetVisible, hob2, hpool2,
      lget_ldel_self _ _ hnodup]
  · simp [createObject, releaseObject, hact, heapSetVisible, hob2, hpool2,
      ht2, hcf2, lget_lset_self]
  · simp [createObject, releaseObject, hact, heapSetVisible, hob2, hpool2,
      ht2, hcf2, lget_lset_self]

/-- Witness for C7 on the concrete fixtures: `pooledConeFactory` pops
object 12 for `coneNode`, and `trackedConeFactory` releases object 12 (node
id 2) and hands it back out for `coneNode2`. -/
theorem createObject_releaseObject_pool_reuse_witness :
    (createObject pooledConeFactory coneNode "nodeThreeObjectType").2
      = some 12 ∧
    (createObject pooledConeFactory coneNode "nodeThreeObjectType").1.creatorRuns
      = pooledConeFactory.creatorRuns ∧
    lget (createObject pooledConeFactory coneNode
      "nodeThreeObjectType").1.objectPools "cone" = some [11] ∧
    lget (createObject pooledConeFactory coneNode
      "nodeThreeObjectType").1.objHeap 12
      = some { geometry := some 3, material := none, visible := true } ∧
    lget (createObject pooledConeFactory coneNode
      "nodeThreeObjectType").1.activeObjects (nodeKey coneNode)
      = some (12, "cone") ∧
    lget (releaseObject trackedConeFactory (.idKey 2)).objHeap 12
      = some { geometry := some 3, material := none, visible := false } ∧
    lget (releaseObject trackedConeFactory (.idKey 2)).objectPools "cone"
      = some ([11] ++ [12]) ∧
    lget (releaseObject trackedConeFactory (.idKey 2)).activeObjects
      (.idKey 2) = none ∧
    (createObject (releaseObject trackedConeFactory (.idKey 2)) coneNode2
      "nodeThreeObjectType").2 = some 12 ∧
    lget (createObject (releaseObject trackedConeFactory (.idKey 2)) coneNode2
      "nodeThreeObjectType").1.objHeap 12
      = some { geometry := some 3, material := none, visible := true } :=
  createObject_releaseObject_pool_reuse
    pooledConeFactory coneNode "cone"
    (fun _ c =>
      .ok (c, { geometry := some 3, material := none, visible := true }))
    [11] 12 { geometry := some 3, material := none, visible := false }
    trackedConeFactory (.idKey 2) 12 "cone"
    (fun _ c =>
      .ok (c, { geometry := some 3, material := none, visible := true }))
    [11] { geometry := some 3, material := none, visible := true }
    coneNode2
    rfl rfl rfl rfl rfl rfl rfl rfl rfl (by decide)

theorem updateExisting_of_find (nm : String) (v : OptPatch)
    (l : List Instance) (ex : Instance)
    (hex : l.find? (fun a => isLiveNamed nm a) = some ex) :
    ∃ l1 l2, l = l1 ++ ex :: l2 ∧
      (∀ b ∈ l1, isLiveNamed nm b = false) ∧
      updateExisting nm v l = l1 ++ { ex with options := v } :: l2 := by
  induction l with
  | nil => simp at hex
  | cons a rest ih =>
    by_cases ha : isLiveNamed nm a
    · rw [List.find?_cons_of_pos _ ha] at hex
      injection hex with hex
      subst hex
      exact ⟨[], rest, by simp [updateExisting, ha]⟩
    · rw [List.find?_cons_of_neg _ ha] at hex
      obtain ⟨l1, l2, heq, hl1, hupd⟩ := ih hex
      refine ⟨a :: l1, l2, by simp [heq], ?_, ?_⟩
      · intro b hb
        rcases List.mem_cons.mp hb with hb | hb
        · subst hb
          simpa using ha
        · exact hl1 b hb
      · simp [updateExisting, ha, hupd]

/-- C2 (violated by the code): counterexample to "the merge is over the
instance's existing resolved options".  After `startAnimation(obj0,
'pulse', {duration: 5})`, a second `startAnimation(obj0, 'pulse', {})`
returns the same id 1, but sets the instance's options to
`{...defaultOptions, ...{}} = {}` — the previously resolved options
(loop/duration/easing/transitionDuration/easingFn) are discarded, instead
of being kept as the claimed merge `{} over resolved` would. -/
theorem startAnimation_restart_discards_resolved_options :
    (startAnimation pulseWorld1 (some 0) "pulse" emptyPatch 1).2 = 1 ∧
    (lget pulseWorld1.objectAnimations 0).map
      (List.map Instance.options) = some [pulseResolvedOpts] ∧
    (lget (startAnimation pulseWorld1 (some 0) "pulse" emptyPatch
      1).1.objectAnimations 0).map (List.map Instance.options)
      = some [emptyPatch] ∧
    patchMerge pulseResolvedOpts emptyPatch ≠ emptyPatch :=
  ⟨rfl, rfl, rfl, by decide⟩

/-- C2 amended: a second `startAnimation` on an object with a live
(non-stopping) instance of the same type creates no instance, does not
re-run init (object heap, id counter, tracking set and the instance's state
all unchanged), returns the existing instance's id, and replaces that
instance's options in place with the merge of the call-site options over
the *type's default options* (the built-in base defaults and the previously
resolved options are discarded). -/
theorem startAnimation_restart_updates_options_in_place
    (w : World) (oid : ℕ) (o : Obj3D) (T : String) (d : AnimTypeDef)
    (l : List Instance) (ex : Instance) (opts : OptPatch) (now : ℚ)
    (ho : lget w.objects oid = some o)
    (hd : lget w.animationTypes T = some d)
    (hl : lget w.objectAnimations oid = some l)
    (hex : l.find? (fun a => isLiveNamed T a) = some ex) :
    (startAnimation w (some oid) T opts now).2 = Int.ofNat ex.id ∧
    (startAnimation w (some oid) T opts now).1.objects = w.objects ∧
    (startAnimation w (some oid) T opts now).1.animationIdCounter
      = w.animationIdCounter ∧
    (startAnimation w (some oid) T opts now).1.animatedObjects
      = w.animatedObjects ∧
    lget (startAnimation w (some oid) T opts now).1.objectAnimations oid
      = some (updateExisting T (patchMerge d.defaultOptions opts) l) ∧
    (∃ l1 l2, l = l1 ++ ex :: l2 ∧
      (∀ b ∈ l1, isLiveNamed T b = false) ∧
      updateExisting T (patchMerge d.defaultOptions opts) l
        = l1 ++ { ex with options := patchMerge d.defaultOptions opts } :: l2) := by
  refine ⟨?_, ?_, ?_, ?_, ?_, ?_⟩
  · simp [startAnimation, ho, hd, hl, hex]
  · simp [startAnimation, ho, hd, hl, hex]
  · simp [startAnimation, ho, hd, hl, hex]
  · simp [startAnimation, ho, hd, hl, hex]
  · simp [startAnimation, ho, hd, hl, hex, lget_lset_self]
  · exact updateExisting_of_find T _ l ex hex

/-- Witness for the amended C2 on `pulseWorld1`: the second start returns
id 1 and rewrites the instance's options in place. -/
theorem startAnimation_restart_updates_options_in_place_witness :
    (startAnimation pulseWorld1 (some 0) "pulse" emptyPatch 1).2
      = Int.ofNat 1 ∧
    (startAnimation pulseWorld1 (some 0) "pulse" emptyPatch 1).1.objects
      = pulseWorld1.objects ∧
    (startAnimation pulseWorld1 (some 0) "pulse" emptyPatch
      1).1.animationIdCounter = pulseWorld1.animationIdCounter ∧
    (startAnimation pulseWorld1 (some 0) "pulse" emptyPatch
      1).1.animatedObjects = pulseWorld1.animatedObjects ∧
    lget (startAnimation pulseWorld1 (some 0) "pulse" emptyPatch
      1).1.objectAnimations 0
      = some (updateExisting "pulse"
          (patchMerge idleType.defaultOptions emptyPatch) pulseInstanceList) ∧
    (∃ l1 l2, pulseInstanceList = l1 ++ pulseInstance1 :: l2 ∧
      (∀ b ∈ l1, isLiveNamed "pulse" b = false) ∧
      updateExisting "pulse" (patchMerge idleType.defaultOptions emptyPatch)
          pulseInstanceList
        = l1 ++ { pulseInstance1 with
            options := patchMerge idleType.defaultOptions emptyPatch } :: l2) :=
  startAnimation_restart_updates_options_in_place
    pulseWorld1 0 baseObj "pulse" idleType pulseInstanceList pulseInstance1
    emptyPatch 1 rfl rfl rfl rfl

/-- One `tick` on a single live (non-stopping) looping instance: the
transition-in step advances the progress, the update runs, nothing else
changes shape. -/
theorem tick_single_live (types : List (String × AnimTypeDef)) (oid : ℕ)
    (o : Obj3D) (a : Instance) (ty : AnimTypeDef) (dt now : ℚ)
    (hty : lget types a.name = some ty)
    (hstop : a.stopping = false)
    (hloop : a.options.loop = some true)
    (hok : ∀ ob st tp, ∃ r, ty.update ob st dt a.options tp = .ok r) :
    ∃ o' s', tick (singleWorld types oid o a) dt now
      = singleWorld types oid o'
          { a with
            transitionProgress :=
              if a.transitionProgress < 1 then
                min 1 (a.transitionProgress + dt / tdOf a.options)
              else a.transitionProgress
            state := s' } := by
  by_cases htp : a.transitionProgress < 1
  · obtain ⟨⟨o2, s2⟩, hr⟩ :=
      hok o a.state (min 1 (a.transitionProgress + dt / tdOf a.options))
    refine ⟨o2, s2, ?_⟩
    simp [tick, singleWorld, tickObject, tickList, lget, lset, hty, hstop,
      hloop, htp, hr]
  · obtain ⟨⟨o2, s2⟩, hr⟩ := hok o a.state a.transitionProgress
    refine ⟨o2, s2, ?_⟩
    simp [tick, singleWorld, tickObject, tickList, lget, lset, hty, hstop,
      hloop, htp, hr]

/-- C6: a live instance with a positive transition duration `d` that is
never marked stopping (here: a looping instance) has transition-progress
`min 1 (N * dt / d)` after `N` ticks of delta `dt` — the ease-in ramp is
advanced by `dt / d` per frame, clamped at 1. -/
theorem tick_transition_progress_formula
    (types : List (String × AnimTypeDef)) (oid : ℕ) (o : Obj3D)
    (a : Instance) (ty : AnimTypeDef) (d dt : ℚ) (nows : ℕ → ℚ) (N : ℕ)
    (hty : lget types a.name = some ty)
    (hstop : a.stopping = false)
    (hloop : a.options.loop = some true)
    (htd : a.options.transitionDuration = some d)
    (_hd : 0 < d)
    (htp0 : a.transitionProgress = 0)
    (hok : ∀ ob st tp, ∃ r, ty.update ob st dt a.options tp = .ok r) :
    ∃ o' s', iterateTicks dt nows N (singleWorld types oid o a)
      = singleWorld types oid o'
          { a with transitionProgress := min 1 (N * dt / d), state := s' } := by
  have htd' : tdOf a.options = d := by
    simp [tdOf, htd]
  induction N with
  | zero =>
    refine ⟨o, a.state, ?_⟩
    have h0 : min 1 ((0 : ℕ) * dt / d) = a.transitionProgress := by
      rw [htp0]
      norm_num
    rw [iterateTicks, h0]
  | succ n ih =>
    obtain ⟨o1, s1, h1⟩ := ih
    obtain ⟨o2, s2, h2⟩ := tick_single_live types oid o1
      { a with transitionProgress := min 1 (n * dt / d), state := s1 } ty dt
      (nows n) hty hstop hloop hok
    refine ⟨o2, s2, ?_⟩
    rw [iterateTicks, h1, h2]
    dsimp only
    rw [htd']
    have key : (if min 1 ((n : ℚ) * dt / d) < 1 then
          min 1 (min 1 ((n : ℚ) * dt / d) + dt / d)
        else min 1 ((n : ℚ) * dt / d)) = min 1 ((((n + 1 : ℕ)) : ℚ) * dt / d) := by
      by_cases hx : (n : ℚ) * dt / d < 1
      · rw [min_eq_right hx.le, if_pos hx]
        have harith : (((n + 1 : ℕ)) : ℚ) * dt / d
            = (n : ℚ) * dt / d + dt / d := by
          push_cast
          ring
        rw [harith]
      · have hx' : (1 : ℚ) ≤ (n : ℚ) * dt / d := not_lt.mp hx
        rw [min_eq_left hx']
        rw [if_neg (lt_irrefl (1 : ℚ))]
        have hmd : (n : ℚ) * dt / d = (n : ℚ) * (dt / d) := mul_div_assoc _ _ _
        have hdtd : (0 : ℚ) ≤ dt / d := by
          by_contra hneg
          push_neg at hneg
          rw [hmd] at hx'
          nlinarith [Nat.cast_nonneg (α := ℚ) n]
        have harith : (((n + 1 : ℕ)) : ℚ) * dt / d
            = (n : ℚ) * dt / d + dt / d := by
          push_cast
          ring
        rw [eq_comm, harith, min_eq_left (by linarith)]
    rw [key]

/-- Witness for C6: three ticks of 1/10 s on a fresh looping instance with
transition duration 1/4 drive its transition-progress to
min 1 (3 * (1/10) / (1/4)). -/
theorem tick_transition_progress_formula_witness :
    ∃ o' s', iterateTicks (1/10) (fun _ => 0) 3
        (singleWorld [("pulse", idleType)] 0 baseObj liveLoopInstance)
      = singleWorld [("pulse", idleType)] 0 o'
          { liveLoopInstance with
            transitionProgress := min 1 ((3 : ℕ) * (1/10) / (1/4))
            state := s' } :=
  tick_transition_progress_formula [("pulse", idleType)] 0 baseObj
    liveLoopInstance idleType (1/4) (1/10) (fun _ => 0) 3
    rfl rfl rfl rfl (by norm_num) rfl (fun ob st _ => ⟨(ob, st), rfl⟩)

/-- C9: unregistering the animation type of a running instance alters
neither the instance nor its object; the next `tick` finds no descriptor
and force-removes the instance from its object's list without running
cleanup and without reapplying the restoration snapshot — the object's
properties stay exactly as they were. -/
theorem unregisterAnimation_tick_force_removes
    (types : List (String × AnimTypeDef)) (T : String) (oid : ℕ)
    (o : Obj3D) (a : Instance) (dt now : ℚ)
    (hT : a.name = T)
    (hnodup : (types.map Prod.fst).Nodup) :
    (unregisterAnimation (singleWorld types oid o a) T).1.objectAnimations
      = (singleWorld types oid o a).objectAnimations ∧
    (unregisterAnimation (singleWorld types oid o a) T).1.objects
      = (singleWorld types oid o a).objects ∧
    lget (unregisterAnimation
      (singleWorld types oid o a) T).1.animationTypes T = none ∧
    lget (tick (unregisterAnimation (singleWorld types oid o a) T).1
      dt now).objects oid = some o ∧
    (tick (unregisterAnimation (singleWorld types oid o a) T).1
      dt now).objectAnimations = [] ∧
    (tick (unregisterAnimation (singleWorld types oid o a) T).1
      dt now).animatedObjects = [] := by
  have hmiss : lget (ldel types T) a.name = none := by
    rw [hT]
    exact lget_ldel_self types T hnodup
  refine ⟨rfl, rfl, ?_, ?_, ?_, ?_⟩
  · exact lget_ldel_self types T hnodup
  · simp [unregisterAnimation, tick, singleWorld, tickObject, tickList,
      hmiss, lget, lset, ldel, List.erase]
  · simp [unregisterAnimation, tick, singleWorld, tickObject, tickList,
      hmiss, lget, lset, ldel, List.erase]
  · simp [unregisterAnimation, tick, singleWorld, tickObject, tickList,
      hmiss, lget, lset, ldel, List.erase]

/-- Witness for C9: unregistering "spin" and ticking removes the spin
instance without touching the object. -/
theorem unregisterAnimation_tick_force_removes_witness :
    (unregisterAnimation
      (singleWorld [("spin", idleType)] 0 baseObj spinInstance)
      "spin").1.objectAnimations
      = (singleWorld [("spin", idleType)] 0 baseObj
          spinInstance).objectAnimations ∧
    (unregisterAnimation
      (singleWorld [("spin", idleType)] 0 baseObj spinInstance)
      "spin").1.objects
      = (singleWorld [("spin", idleType)] 0 baseObj spinInstance).objects ∧
    lget (unregisterAnimation
      (singleWorld [("spin", idleType)] 0 baseObj spinInstance)
      "spin").1.animationTypes "spin" = none ∧
    lget (tick (unregisterAnimation
      (singleWorld [("spin", idleType)] 0 baseObj spinInstance) "spin").1
      (1/10) 1).objects 0 = some baseObj ∧
    (tick (unregisterAnimation
      (singleWorld [("spin", idleType)] 0 baseObj spinInstance) "spin").1
      (1/10) 1).objectAnimations = [] ∧
    (tick (unregisterAnimation
      (singleWorld [("spin", idleType)] 0 baseObj spinInstance) "spin").1
      (1/10) 1).animatedObjects = [] :=
  unregisterAnimation_tick_force_removes [("spin", idleType)] "spin" 0
    baseObj spinInstance (1/10) 1 rfl (by simp)

/-- C5 (violated by the code): the non-loop expiry branch of `tick` has no
"unless already stopping" guard, so every tick with elapsed ≥ duration
*re-assigns* `stopStartTime = now`.  For the non-looping instance with
duration 3/10 and transitionDuration 1/5 started at 0 and ticked at times
3/10, 2/5 and 1/2 (frame gap 1/10 < 1/5): the first tick correctly marks it
stopping with stop-start 3/10 (the claim-conformant half), but at time 1/2
— exactly `transitionDuration` after stopping began, when the claim says
the instance has been removed with cleanup — the instance is still present,
its stop-start time having been reset to 2/5 and then 1/2; its stop
progress can never reach 1 at this frame rate, so it is never removed. -/
theorem tick_nonloop_stop_timer_reset :
    tick (singleWorld [("pulse", idleType)] 0 baseObj expiringInstance)
      (1/10) (3/10)
      = singleWorld [("pulse", idleType)] 0 baseObj
          (stoppingAt (1/2) (3/10)) ∧
    tick (singleWorld [("pulse", idleType)] 0 baseObj
      (stoppingAt (1/2) (3/10))) (1/10) (2/5)
      = singleWorld [("pulse", idleType)] 0 baseObj
          (stoppingAt (1/2) (2/5)) ∧
    tick (singleWorld [("pulse", idleType)] 0 baseObj
      (stoppingAt (1/2) (2/5))) (1/10) (1/2)
      = singleWorld [("pulse", idleType)] 0 baseObj
          (stoppingAt (1/2) (1/2)) ∧
    ((1 : ℚ)/2) - 3/10 ≥ 1/5 ∧
    (lget (singleWorld [("pulse", idleType)] 0 baseObj
      (stoppingAt (1/2) (1/2))).objectAnimations 0).map List.length
      = some 1 := by
  refine ⟨?_, ?_, ?_, by norm_num, by simp [singleWorld, lget]⟩
  · norm_num [tick, singleWorld, tickObject, tickList, lget, lset,
      idleType, expiringInstance, stoppingAt, tdOf, geOpt, min_def]
  · norm_num [tick, singleWorld, tickObject, tickList, lget, lset,
      idleType, expiringInstance, stoppingAt, tdOf, geOpt, min_def]
  · norm_num [tick, singleWorld, tickObject, tickList, lget, lset,
      idleType, expiringInstance, stoppingAt, tdOf, geOpt, min_def]

/-- C4: a throwing update is caught inside `tick` (the embedding's `.error`
branch of the per-instance update call): the throwing instance is removed
from its object's list without cleanup and without snapshot restoration
(the object reaches the next instance's update unchanged), while the other
instance on the same object and the instance on a second object are updated
normally in the same tick. -/
theorem tick_update_throw_isolated
    (types : List (String × AnimTypeDef)) (dtb dtc bad : AnimTypeDef)
    (b c athrow : Instance) (o1 o2 ob oc : Obj3D) (sb sc : AState)
    (dt now : ℚ)
    (hb : lget types b.name = some dtb)
    (hc : lget types c.name = some dtc)
    (hbad : lget types athrow.name = some bad)
    (hthrow : ∀ obx st tp, bad.update obx st dt athrow.options tp
      = .error ())
    (hastop : athrow.stopping = false)
    (haloop : athrow.options.loop = some true)
    (hbtp : b.transitionProgress = 1)
    (hbstop : b.stopping = false)
    (hbloop : b.options.loop = some true)
    (hctp : c.transitionProgress = 1)
    (hcstop : c.stopping = false)
    (hcloop : c.options.loop = some true)
    (hbup : dtb.update o1 b.state dt b.options 1 = .ok (ob, sb))
    (hcup : dtc.update o2 c.state dt c.options 1 = .ok (oc, sc)) :
    tick (twoWorld types o1 o2 [b, athrow] [c]) dt now
      = twoWorld types ob oc [{ b with state := sb }]
          [{ c with state := sc }] ∧
    (lget (tick (twoWorld types o1 o2 [b, athrow] [c]) dt
      now).objectAnimations 0).map (List.map Instance.id) = some [b.id] := by
  have hmain : tick (twoWorld types o1 o2 [b, athrow] [c]) dt now
      = twoWorld types ob oc [{ b with state := sb }]
          [{ c with state := sc }] := by
    simp [tick, twoWorld, tickObject, tickList, lget, lset, hb, hc, hbad,
      hastop, haloop, hbtp, hbstop, hbloop, hctp, hcstop, hcloop,
      hbup, hcup, hthrow, apply_ite Instance.stopping,
      apply_ite Instance.options, apply_ite Instance.state]
  refine ⟨hmain, ?_⟩
  rw [hmain]
  simp [twoWorld, lget]

/-- Witness for C4 at concrete inputs: object 0 carries a steady "pulse"
instance and a "bad" (throwing) instance, object 1 an independent steady
"pulse" instance; one tick drops only the throwing instance. -/
theorem tick_update_throw_isolated_witness :
    tick (twoWorld [("pulse", idleType), ("bad", throwType)] baseObj baseObj
        [steadyInstance, throwInstance] [steadyInstance2]) (1/10) 1
      = twoWorld [("pulse", idleType), ("bad", throwType)] baseObj baseObj
          [{ steadyInstance with state := ([] : AState) }]
          [{ steadyInstance2 with state := ([] : AState) }] ∧
    (lget (tick (twoWorld [("pulse", idleType), ("bad", throwType)] baseObj
        baseObj [steadyInstance, throwInstance] [steadyInstance2]) (1/10)
        1).objectAnimations 0).map (List.map Instance.id)
      = some [steadyInstance.id] :=
  tick_update_throw_isolated
    [("pulse", idleType), ("bad", throwType)] idleType idleType throwType
    steadyInstance steadyInstance2 throwInstance baseObj baseObj baseObj
    baseObj [] [] (1/10) 1
    rfl rfl rfl (fun _ _ _ => rfl) rfl rfl rfl rfl rfl rfl rfl rfl rfl rfl

/-- C10: a non-immediate `stopAnimation` on a live instance only marks it
stopping (instance still tracked, object untouched), which immediately
makes both `isAnimating(O, T)` and `isAnimating(O)` false because stopping
instances are excluded from every isAnimating query; a tick strictly before
the stop transition completes keeps the instance and still invokes its
update with the fading blend factor `1 - (now - t0)/d`; the first tick at
which `(now - t0)/d` reaches 1 runs cleanup, reapplies the snapshot and
drops the instance. -/
theorem stopAnimation_nonimmediate_graceful
    (types : List (String × AnimTypeDef)) (oid : ℕ) (o o1 : Obj3D)
    (a : Instance) (ty : AnimTypeDef) (s1 : AState) (T : String)
    (d dt t0 now1 now2 : ℚ)
    (hT : a.name = T)
    (hty : lget types T = some ty)
    (hstop : a.stopping = false)
    (hloop : a.options.loop = some true)
    (htd : a.options.transitionDuration = some d)
    (hd : 0 < d)
    (hn1 : now1 - t0 < d)
    (hn2 : t0 + d ≤ now2)
    (hup : ty.update o a.state dt a.options (1 - (now1 - t0) / d)
      = .ok (o1, s1)) :
    stopAnimation (singleWorld types oid o a) (some oid) (some (.inl T))
        false t0
      = singleWorld types oid o
          { a with stopping := true, stopStartTime := t0 } ∧
    isAnimating (stopAnimation (singleWorld types oid o a) (some oid)
      (some (.inl T)) false t0) (some oid) (some T) = false ∧
    isAnimating (stopAnimation (singleWorld types oid o a) (some oid)
      (some (.inl T)) false t0) (some oid) none = false ∧
    tick (stopAnimation (singleWorld types oid o a) (some oid)
        (some (.inl T)) false t0) dt now1
      = singleWorld types oid o1
          { { a with stopping := true, stopStartTime := t0 } with
            transitionProgress := 1 - (now1 - t0) / d, state := s1 } ∧
    tick (stopAnimation (singleWorld types oid o a) (some oid)
        (some (.inl T)) false t0) dt now2
      = { animationTypes := types
          objects := [(oid, cleanupAnimation types o
            { a with stopping := true, stopStartTime := t0 })]
          objectAnimations := []
          animatedObjects := []
          animationIdCounter := a.id } := by
  have h1 : stopAnimation (singleWorld types oid o a) (some oid)
      (some (.inl T)) false t0
      = singleWorld types oid o
          { a with stopping := true, stopStartTime := t0 } := by
    simp [stopAnimation, singleWorld, stopList, selMatches, hT, hstop,
      lget, lset]
  have hlt : (now1 - t0) / d < 1 := (div_lt_one hd).mpr hn1
  have hge1 : (1 : ℚ) ≤ (now2 - t0) / d := (one_le_div hd).mpr (by linarith)
  refine ⟨h1, ?_, ?_, ?_, ?_⟩
  · rw [h1]
    simp [isAnimating, singleWorld, lget]
  · rw [h1]
    simp [isAnimating, singleWorld, lget]
  · rw [h1]
    simp [tick, tickObject, tickList, singleWorld, lget, lset, tdOf, htd,
      hT, hty, hup, min_eq_right hlt.le, not_le.mpr hlt, hloop]
  · rw [h1]
    simp [tick, tickObject, tickList, singleWorld, lget, lset, ldel,
      List.erase, tdOf, htd, hT, hty, min_eq_left hge1, hloop]

/-- Witness for C10 at concrete inputs: stop at t0 = 1 with transition
duration 1/4; the tick at 9/8 keeps the fading instance, the tick at 5/4
removes it with cleanup and restoration. -/
theorem stopAnimation_nonimmediate_graceful_witness :
    stopAnimation (singleWorld [("pulse", idleType)] 0 baseObj
        liveLoopInstance) (some 0) (some (.inl "pulse")) false 1
      = singleWorld [("pulse", idleType)] 0 baseObj
          { liveLoopInstance with stopping := true, stopStartTime := 1 } ∧
    isAnimating (stopAnimation (singleWorld [("pulse", idleType)] 0 baseObj
      liveLoopInstance) (some 0) (some (.inl "pulse")) false 1) (some 0)
      (some "pulse") = false ∧
    isAnimating (stopAnimation (singleWorld [("pulse", idleType)] 0 baseObj
      liveLoopInstance) (some 0) (some (.inl "pulse")) false 1) (some 0)
      none = false ∧
    tick (stopAnimation (singleWorld [("pulse", idleType)] 0 baseObj
        liveLoopInstance) (some 0) (some (.inl "pulse")) false 1) (1/10)
        (9/8)
      = singleWorld [("pulse", idleType)] 0 baseObj
          { { liveLoopInstance with stopping := true, stopStartTime := 1 } with
            transitionProgress := 1 - (9/8 - 1) / (1/4), state := [] } ∧
    tick (stopAnimation (singleWorld [("pulse", idleType)] 0 baseObj
        liveLoopInstance) (some 0) (some (.inl "pulse")) false 1) (1/10)
        (5/4)
      = { animationTypes := [("pulse", idleType)]
          objects := [(0, cleanupAnimation [("pulse", idleType)] baseObj
            { liveLoopInstance with stopping := true, stopStartTime := 1 })]
          objectAnimations := []
          animatedObjects := []
          animationIdCounter := liveLoopInstance.id } :=
  stopAnimation_nonimmediate_graceful [("pulse", idleType)] 0 baseObj
    baseObj liveLoopInstance idleType [] "pulse" (1/4) (1/10) 1 (9/8) (5/4)
    rfl rfl rfl rfl rfl (by norm_num) (by norm_num) (by norm_num) rfl

theorem stopList_no_match (types : List (String × AnimTypeDef))
    (sel : Option (String ⊕ ℕ)) (imm : Bool) (now : ℚ)
    (l : List Instance) (o : Obj3D)
    (h : ∀ b ∈ l, (selMatches sel b && !b.stopping) = false) :
    stopList types sel imm now l o = (l, o) := by
  induction l with
  | nil => rfl
  | cons b rest ih =>
    have hb := h b (List.mem_cons_self b rest)
    have hrest : ∀ x ∈ rest, (selMatches sel x && !x.stopping) = false :=
      fun x hx => h x (List.mem_cons_of_mem _ hx)
    simp [stopList, ih hrest, hb]

theorem stopList_immediate_unique (types : List (String × AnimTypeDef))
    (sel : Option (String ⊕ ℕ)) (now : ℚ) (l1 l2 : List Instance)
    (a : Instance) (o : Obj3D)
    (h1 : ∀ b ∈ l1, (selMatches sel b && !b.stopping) = false)
    (h2 : ∀ b ∈ l2, (selMatches sel b && !b.stopping) = false)
    (ha : (selMatches sel a && !a.stopping) = true) :
    stopList types sel true now (l1 ++ a :: l2) o
      = (l1 ++ l2, cleanupAnimation types o a) := by
  induction l1 with
  | nil =>
    simp [stopList, stopList_no_match types sel true now l2 o h2, ha]
  | cons b rest ih =>
    have hb := h1 b (List.mem_cons_self b rest)
    have hrest : ∀ x ∈ rest, (selMatches sel x && !x.stopping) = false :=
      fun x hx => h1 x (List.mem_cons_of_mem _ hx)
    simp [stopList, ih hrest, hb]

theorem restore_scale (iv : InitialValues) (o : Obj3D) :
    (restoreInitialValues iv o).scale = iv.scale := by
  rcases hiv : iv.material with _ | im <;>
    rcases hom : o.material with _ | m <;>
      simp [restoreInitialValues, hiv, hom]

theorem restore_rotation (iv : InitialValues) (o : Obj3D) :
    (restoreInitialValues iv o).rotation = iv.rotation := by
  rcases hiv : iv.material with _ | im <;>
    rcases hom : o.material with _ | m <;>
      simp [restoreInitialValues, hiv, hom]

theorem restore_material_some (iv : InitialValues) (o : Obj3D)
    (im m : Material) (hiv : iv.material = some im)
    (hom : o.material = some m) :
    (restoreInitialValues iv o).material = some (restoreMaterial im m) := by
  simp [restoreInitialValues, hiv, hom]

theorem restoreMaterial_opacity (im m : Material) (v : ℚ)
    (h : im.opacity = some v) : (restoreMaterial im m).opacity = some v := by
  rcases he : im.emissive with _ | e <;>
    rcases hme : m.emissive with _ | me <;>
      rcases hei : im.emissiveIntensity with _ | ei <;>
        rcases hc : im.color with _ | c <;>
          rcases hmc : m.color with _ | mc <;>
            simp [restoreMaterial, h, he, hme, hei, hc, hmc]

theorem restoreMaterial_emissiveIntensity (im m : Material) (v : ℚ)
    (h : im.emissiveIntensity = some v) :
    (restoreMaterial im m).emissiveIntensity = some v := by
  rcases he : im.emissive with _ | e <;>
    rcases hme : m.emissive with _ | me <;>
      rcases ho : im.opacity with _ | ov <;>
        rcases hc : im.color with _ | c <;>
          rcases hmc : m.color with _ | mc <;>
            simp [restoreMaterial, h, he, hme, ho, hc, hmc]

theorem restoreMaterial_emissive (im m : Material) (e e0 : Vec3)
    (h : im.emissive = some e) (h0 : m.emissive = some e0) :
    (restoreMaterial im m).emissive = some e := by
  rcases hei : im.emissiveIntensity with _ | ei <;>
    rcases ho : im.opacity with _ | ov <;>
      rcases hc : im.color with _ | c <;>
        rcases hmc : m.color with _ | mc <;>
          simp [restoreMaterial, h, h0, hei, ho, hc, hmc]

theorem restoreMaterial_color (im m : Material) (c c0 : Vec3)
    (h : im.color = some c) (h0 : m.color = some c0) :
    (restoreMaterial im m).color = some c := by
  rcases he : im.emissive with _ | e <;>
    rcases hme : m.emissive with _ | me <;>
      rcases hei : im.emissiveIntensity with _ | ei <;>
        rcases ho : im.opacity with _ | ov <;>
          simp [restoreMaterial, h, h0, he, hme, hei, ho]

/-- C1 (violated by the code): counterexample to "position is restored".
The restoration block deliberately skips position ("position is typically
managed by force graph, don't restore"): starting the position-moving
animation "mv" on an object at the origin, ticking once, then stopping
immediately leaves the object at x = 99, not at the captured snapshot
position 0 — while the instance is indeed gone. -/
theorem stopAnimation_immediate_position_not_restored :
    baseObj.position = ⟨0, 0, 0⟩ ∧
    (lget (startAnimation moveWorld0 (some 0) "mv" emptyPatch
      0).1.objectAnimations 0).map
      (List.map (fun i => i.initialValues.position)) = some [⟨0, 0, 0⟩] ∧
    isAnimating (stopAnimation (tick (startAnimation moveWorld0 (some 0)
      "mv" emptyPatch 0).1 (1/10) (1/10)) (some 0) (some (.inl "mv")) true
      (1/5)) (some 0) (some "mv") = false ∧
    (lget (stopAnimation (tick (startAnimation moveWorld0 (some 0) "mv"
      emptyPatch 0).1 (1/10) (1/10)) (some 0) (some (.inl "mv")) true
      (1/5)).objects 0).map Obj3D.position = some ⟨99, 0, 0⟩ ∧
    (⟨99, 0, 0⟩ : Vec3) ≠ (⟨0, 0, 0⟩ : Vec3) := by
  refine ⟨rfl, rfl, ?_, ?_, by decide⟩
  · norm_num [startAnimation, tick, tickObject, tickList, stopAnimation,
      stopList, selMatches, isAnimating, cleanupAnimation, applyCleanup,
      restoreInitialValues, captureInitialValues, moveWorld0, moveType,
      baseObj, emptyPatch, baseDefaults, patchMerge, oMerge, getEasing,
      easingNames, lget, lset, ldel, addUnique, tdOf, geOpt, min_def,
      List.erase]
  · norm_num [startAnimation, tick, tickObject, tickList, stopAnimation,
      stopList, selMatches, isAnimating, cleanupAnimation, applyCleanup,
      restoreInitialValues, captureInitialValues, moveWorld0, moveType,
      baseObj, emptyPatch, baseDefaults, patchMerge, oMerge, getEasing,
      easingNames, lget, lset, ldel, addUnique, tdOf, geOpt, min_def,
      List.erase]

/-- C1 amended: `stopAnimation(O, T, true)` on an object whose only live
(non-stopping) T-named instance is `a` synchronously runs the type's
cleanup followed by snapshot restoration (the object becomes
`cleanupAnimation types o a = restoreInitialValues a.initialValues
(applyCleanup types o a)`), removes the instance so `isAnimating(O, T)` is
false immediately after, and reapplies the captured snapshot to scale and
rotation unconditionally and to each captured material property whose
guard still holds on the post-cleanup material; position is captured but
deliberately not restored. -/
theorem stopAnimation_immediate_cleanup_restore
    (types : List (String × AnimTypeDef)) (oid : ℕ) (o : Obj3D)
    (a : Instance) (ty : AnimTypeDef) (T : String) (l1 l2 : List Instance)
    (now : ℚ)
    (hT : a.name = T)
    (_hty : lget types T = some ty)
    (hstop : a.stopping = false)
    (h1 : ∀ b ∈ l1, (selMatches (some (.inl T)) b && !b.stopping) = false)
    (h2 : ∀ b ∈ l2, (selMatches (some (.inl T)) b && !b.stopping) = false) :
    lget (stopAnimation (listWorld types oid o (l1 ++ a :: l2)) (some oid)
      (some (.inl T)) true now).objects oid
      = some (cleanupAnimation types o a) ∧
    (lget (stopAnimation (listWorld types oid o (l1 ++ a :: l2)) (some oid)
      (some (.inl T)) true now).objectAnimations oid).getD []
      = l1 ++ l2 ∧
    isAnimating (stopAnimation (listWorld types oid o (l1 ++ a :: l2))
      (some oid) (some (.inl T)) true now) (some oid) (some T) = false ∧
    (cleanupAnimation types o a).scale = a.initialValues.scale ∧
    (cleanupAnimation types o a).rotation = a.initialValues.rotation ∧
    (∀ im m, a.initialValues.material = some im →
      (applyCleanup types o a).material = some m →
      (cleanupAnimation types o a).material = some (restoreMaterial im m) ∧
      (∀ v, im.opacity = some v → (restoreMaterial im m).opacity = some v) ∧
      (∀ v, im.emissiveIntensity = some v →
        (restoreMaterial im m).emissiveIntensity = some v) ∧
      (∀ e e0, im.emissive = some e → m.emissive = some e0 →
        (restoreMaterial im m).emissive = some e) ∧
      (∀ c c0, im.color = some c → m.color = some c0 →
        (restoreMaterial im m).color = some c)) := by
  have ha : (selMatches (some (.inl T)) a && !a.stopping) = true := by
    simp [selMatches, hT, hstop]
  have hsl : stopList types (some (.inl T)) true now (l1 ++ a :: l2) o
      = (l1 ++ l2, cleanupAnimation types o a) :=
    stopList_immediate_unique types _ now l1 l2 a o h1 h2 ha
  have hall : (l1 ++ l2).any (fun b => b.name = T && !b.stopping) = false := by
    rw [List.any_eq_false]
    intro b hb
    rcases List.mem_append.mp hb with h | h
    · simpa [selMatches] using h1 b h
    · simpa [selMatches] using h2 b h
  refine ⟨?_, ?_, ?_, ?_, ?_, ?_⟩
  · by_cases hemp : (l1 ++ l2).isEmpty <;>
      simp [stopAnimation, listWorld, lget, lset, ldel, hsl, hemp]
  · by_cases hemp : (l1 ++ l2).isEmpty
    · have : l1 ++ l2 = [] := List.isEmpty_iff.mp hemp
      simp [stopAnimation, listWorld, lget, lset, ldel, hsl, hemp, this]
    · simp [stopAnimation, listWorld, lget, lset, ldel, hsl, hemp,
        lget_lset_self]
  · by_cases hemp : (l1 ++ l2).isEmpty
    · simp [stopAnimation, listWorld, isAnimating, lget, lset, ldel, hsl,
        hemp]
    · simp [stopAnimation, listWorld, isAnimating, lget, lset, ldel, hsl,
        hemp, lget_lset_self, hall, List.isEmpty_iff]
  · simp [cleanupAnimation, restore_scale]
  · simp [cleanupAnimation, restore_rotation]
  · intro im m hiv hm
    refine ⟨?_, ?_, ?_, ?_, ?_⟩
    · simp [cleanupAnimation, restore_material_some _ _ _ _ hiv hm]
    · exact fun v hv => restoreMaterial_opacity im m v hv
    · exact fun v hv => restoreMaterial_emissiveIntensity im m v hv
    · exact fun e e0 he h0 => restoreMaterial_emissive im m e e0 he h0
    · exact fun c c0 hc h0 => restoreMaterial_color im m c c0 hc h0

/-- Witness for the amended C1: immediately stopping the "glow" instance on
the fully mutated object restores scale, rotation and the captured material
properties from the snapshot taken on `matObj`. -/
theorem stopAnimation_immediate_cleanup_restore_witness :
    lget (stopAnimation (listWorld [("glow", idleType)] 0 mutObj
      ([] ++ glowInstance :: [])) (some 0) (some (.inl "glow")) true
      2).objects 0
      = some (cleanupAnimation [("glow", idleType)] mutObj glowInstance) ∧
    (lget (stopAnimation (listWorld [("glow", idleType)] 0 mutObj
      ([] ++ glowInstance :: [])) (some 0) (some (.inl "glow")) true
      2).objectAnimations 0).getD [] = [] ++ [] ∧
    isAnimating (stopAnimation (listWorld [("glow", idleType)] 0 mutObj
      ([] ++ glowInstance :: [])) (some 0) (some (.inl "glow")) true 2)
      (some 0) (some "glow") = false ∧
    (cleanupAnimation [("glow", idleType)] mutObj glowInstance).scale
      = glowInstance.initialValues.scale ∧
    (cleanupAnimation [("glow", idleType)] mutObj glowInstance).rotation
      = glowInstance.initialValues.rotation ∧
    (∀ im m, glowInstance.initialValues.material = some im →
      (applyCleanup [("glow", idleType)] mutObj glowInstance).material
        = some m →
      (cleanupAnimation [("glow", idleType)] mutObj glowInstance).material
        = some (restoreMaterial im m) ∧
      (∀ v, im.opacity = some v → (restoreMaterial im m).opacity = some v) ∧
      (∀ v, im.emissiveIntensity = some v →
        (restoreMaterial im m).emissiveIntensity = some v) ∧
      (∀ e e0, im.emissive = some e → m.emissive = some e0 →
        (restoreMaterial im m).emissive = some e) ∧
      (∀ c c0, im.color = some c → m.color = some c0 →
        (restoreMaterial im m).color = some c)) :=
  stopAnimation_immediate_cleanup_restore [("glow", idleType)] 0 mutObj
    glowInstance idleType "glow" [] [] 2 rfl rfl rfl
    (fun b hb => absurd hb (List.not_mem_nil b))
    (fun b hb => absurd hb (List.not_mem_nil b))

end ForceGraph
